import Mathlib

/-!
Shallow embedding of the generation pipeline of the job-application helper
(Next.js + Hugging Face inference) and proofs about it.

Sources embedded:
- `src/app/api/qa/generate-questions/route.ts` (question generation with
  AI-parse path and deterministic fallback path)
- `src/src/infrastructure/services/huggingface.service.ts` (inference client
  adapter, token resolver, fallback chain)
- the legacy `HfInference`-based service (unnamed source file) for its
  `getHfClient` token check
- the CV analyzer service (`analyzeCVMatch`, `calculateBasicMatch`,
  `calculateKeywordOverlap`, `generateRecommendations`)
- the CV info extractor service (`extractCVInfo`, `extractBasicInfo`)

Conventions: JS strings are Lean `String`s; JS numbers are `ℚ` where
fractional arithmetic occurs and `ℤ`/`ℕ` otherwise; a JS value that may be
`undefined`/`null` is an `Option`; a thrown exception is an `Except.error`.
The nondeterministic outcome of one upstream network call is a parameter of
the embedding (a function from the issued request to an outcome), as is the
already-JSON-parsed value of a model response where the surrounding code
only branches on parse success.
-/

/-- Candidate profile inside a job analysis (jobAnalyzer.service). -/
structure CandidateProfile where
  experienceLevel : String
  keySkills : List String
  personalityTraits : List String
  education : String
  deriving Repr, DecidableEq

/-- JobAnalysis record produced by the job analyzer (jobAnalyzer.service). -/
structure JobAnalysis where
  businessType : String
  industry : String
  candidateProfile : CandidateProfile
  values : List String
  keyRequirements : List String
  writingStyle : String
  domainStandards : String
  missingInfo : List String
  deriving Repr, DecidableEq

/-- QuestionType enumeration from shared/types. -/
inductive QuestionType where
  | personal_info
  | experience
  | education
  | skills
  | certifications
  | languages
  | summary
  deriving Repr, DecidableEq

/-- Priority of a generated question: high, medium or low. -/
inductive Priority where
  | high
  | medium
  | low
  deriving Repr, DecidableEq

/-- GeneratedQuestion record from the generate-questions route. -/
structure GeneratedQuestion where
  id : String
  type : QuestionType
  question : String
  purpose : String
  priority : Priority
  deriving Repr, DecidableEq

/-- CVMatchAnalysis record from cvAnalyzer.service.  The match score is a JS
number, embedded as `ℚ`. -/
structure CVMatchAnalysis where
  matchScore : ℚ
  matchedSkills : List String
  missingSkills : List String
  matchedRequirements : List String
  missingRequirements : List String
  semanticGaps : List String
  recommendations : List String
  deriving Repr, DecidableEq

/-- personalInfo part of ExtractedCVInfo (cvInfoExtractor.service); all
fields optional. -/
structure ExtractedPersonalInfo where
  fullName : Option String := none
  email : Option String := none
  phone : Option String := none
  location : Option String := none
  deriving Repr, DecidableEq

/-- Experience entry of ExtractedCVInfo. -/
structure ExperienceEntry where
  title : Option String := none
  company : Option String := none
  duration : Option String := none
  description : Option String := none
  deriving Repr, DecidableEq

/-- Education entry of ExtractedCVInfo. -/
structure EducationEntry where
  degree : Option String := none
  institution : Option String := none
  field : Option String := none
  year : Option String := none
  deriving Repr, DecidableEq

/-- ExtractedCVInfo record from cvInfoExtractor.service. -/
structure ExtractedCVInfo where
  personalInfo : ExtractedPersonalInfo
  experience : List ExperienceEntry
  education : List EducationEntry
  skills : List String
  certifications : List String
  summary : Option String := none
  hasPersonalInfo : Bool
  hasExperience : Bool
  hasEducation : Bool
  hasSkills : Bool
  deriving Repr, DecidableEq

/-- JS optional chaining `extractedCVInfo?.flag`: `undefined` is falsy. -/
def optFlag (f : ExtractedCVInfo → Bool) : Option ExtractedCVInfo → Bool
  | some i => f i
  | none => false

/-- The fixed personal-info question pushed first by
`generateDefaultQuestions` (its id is the literal string q-1). -/
def personalInfoQuestion : GeneratedQuestion :=
  { id := "q-1"
    type := QuestionType.personal_info
    question := "Let\x27s start with the basics. What\x27s your full name, email, and location?"
    purpose := "Get contact information"
    priority := Priority.high }

/-- Experience question used when the CV has no experience section; `n` is
the length of the questions array at push time. -/
def experienceAskQuestion (ja : JobAnalysis) (n : Nat) : GeneratedQuestion :=
  { id := "q-" ++ toString (n + 1)
    type := QuestionType.experience
    question := "Tell me about your most relevant work experience for a "
      ++ ja.candidateProfile.experienceLevel ++ " role in " ++ ja.industry
      ++ ". What was your position and what did you accomplish?"
    purpose := "Understand work experience"
    priority := Priority.high }

/-- Experience question used when the CV already has experience. -/
def experienceDetailQuestion (n : Nat) : GeneratedQuestion :=
  { id := "q-" ++ toString (n + 1)
    type := QuestionType.experience
    question := "I see you have work experience. Can you tell me about your biggest achievements and impact metrics? Include specific numbers if possible."
    purpose := "Get detailed achievements and metrics"
    priority := Priority.high }

/-- Skills question used when the CV has no skills section. -/
def skillsVerifyQuestion (ja : JobAnalysis) (n : Nat) : GeneratedQuestion :=
  { id := "q-" ++ toString (n + 1)
    type := QuestionType.skills
    question := "Which of these skills do you have experience with: "
      ++ String.intercalate ", " (ja.candidateProfile.keySkills.take 5)
      ++ "? Can you give examples?"
    purpose := "Verify key skills"
    priority := Priority.high }

/-- Skills question used when the CV has skills but the match found gaps. -/
def skillsGapQuestion (m : CVMatchAnalysis) (n : Nat) : GeneratedQuestion :=
  { id := "q-" ++ toString (n + 1)
    type := QuestionType.skills
    question := "I see you have some skills listed. Can you tell me about your experience with "
      ++ String.intercalate ", " (m.missingSkills.take 3) ++ "?"
    purpose := "Fill skill gaps"
    priority := Priority.high }

/-- Education question used when the CV has no education section. -/
def educationQuestion (ja : JobAnalysis) (n : Nat) : GeneratedQuestion :=
  { id := "q-" ++ toString (n + 1)
    type := QuestionType.education
    question := "What\x27s your educational background? "
      ++ (if ja.candidateProfile.education ≠ "Not specified" then
            "The role requires: " ++ ja.candidateProfile.education
          else "")
    purpose := "Verify education"
    priority := Priority.medium }

/-- First of the two fixed additional questions (id uses the array length
before both are pushed, per the array-literal evaluation order). -/
def achievementsQuestion (n : Nat) : GeneratedQuestion :=
  { id := "q-" ++ toString (n + 1)
    type := QuestionType.experience
    question := "What are your biggest professional achievements? Include specific metrics if possible."
    purpose := "Get achievement data"
    priority := Priority.high }

/-- Second of the two fixed additional questions (literal id q-7). -/
def summaryQuestion : GeneratedQuestion :=
  { id := "q-7"
    type := QuestionType.summary
    question := "Give me a brief professional summary that highlights why you\x27re a great fit for this role."
    purpose := "Create professional summary"
    priority := Priority.high }

/-- Padding question pushed by the while-loop until 10 questions exist. -/
def padQuestion (ja : JobAnalysis) (n : Nat) : GeneratedQuestion :=
  { id := "q-" ++ toString (n + 1)
    type := QuestionType.experience
    question := "Tell me about another relevant experience or project that demonstrates your fit for this "
      ++ ja.businessType ++ " role."
    purpose := "Gather more experience details"
    priority := Priority.medium }

/-- The while-loop of `generateDefaultQuestions`: push padding questions
until the list reaches length 10. -/
def padQuestions (ja : JobAnalysis) (qs : List GeneratedQuestion) : List GeneratedQuestion :=
  if _h : qs.length < 10 then
    padQuestions ja (qs ++ [padQuestion ja qs.length])
  else qs
termination_by 10 - qs.length
decreasing_by
  simp only [List.length_append, List.length_singleton]
  omega

/-- Conditional personal-info push of `generateDefaultQuestions`: only when
the CV does not already carry personal info. -/
def personalSeg (extractedCVInfo : Option ExtractedCVInfo) : List GeneratedQuestion :=
  if ¬ optFlag ExtractedCVInfo.hasPersonalInfo extractedCVInfo then
    [personalInfoQuestion]
  else []

/-- Experience push of `generateDefaultQuestions` (always one question,
whose text depends on whether the CV has experience). -/
def expSeg (ja : JobAnalysis) (extractedCVInfo : Option ExtractedCVInfo) (n : Nat) :
    List GeneratedQuestion :=
  if ¬ optFlag ExtractedCVInfo.hasExperience extractedCVInfo then
    [experienceAskQuestion ja n]
  else
    [experienceDetailQuestion n]

/-- Skills push of `generateDefaultQuestions`: verify question when the CV
has no skills, gap question when the match found missing skills. -/
def skillsSeg (ja : JobAnalysis) (cvMatch : Option CVMatchAnalysis)
    (extractedCVInfo : Option ExtractedCVInfo) (n : Nat) : List GeneratedQuestion :=
  if ¬ optFlag ExtractedCVInfo.hasSkills extractedCVInfo then
    [skillsVerifyQuestion ja n]
  else
    match cvMatch with
    | some m =>
      if m.missingSkills.length > 0 then [skillsGapQuestion m n] else []
    | none => []

/-- Education push of `generateDefaultQuestions`: only when the CV has no
education section. -/
def eduSeg (ja : JobAnalysis) (extractedCVInfo : Option ExtractedCVInfo) (n : Nat) :
    List GeneratedQuestion :=
  if ¬ optFlag ExtractedCVInfo.hasEducation extractedCVInfo then
    [educationQuestion ja n]
  else []

/-- The base list built by `generateDefaultQuestions` before the padding
loop: the sequence of conditional pushes followed by the two fixed
additional questions.  Each push receives the array length at push time. -/
def defaultQuestionsBase (jobAnalysis : JobAnalysis) (cvMatch : Option CVMatchAnalysis)
    (extractedCVInfo : Option ExtractedCVInfo) : List GeneratedQuestion :=
  let q1 := personalSeg extractedCVInfo
  let q2 := q1 ++ expSeg jobAnalysis extractedCVInfo q1.length
  let q3 := q2 ++ skillsSeg jobAnalysis cvMatch extractedCVInfo q2.length
  let q4 := q3 ++ eduSeg jobAnalysis extractedCVInfo q3.length
  q4 ++ [achievementsQuestion q4.length, summaryQuestion]

/-- Fallback question path of the generate-questions route
(`generateDefaultQuestions`): conditional template questions, padded to at
least 10 by the while-loop, then truncated to at most 15. -/
def generateDefaultQuestions (jobAnalysis : JobAnalysis) (cvMatch : Option CVMatchAnalysis)
    (extractedCVInfo : Option ExtractedCVInfo) : List GeneratedQuestion :=
  (padQuestions jobAnalysis (defaultQuestionsBase jobAnalysis cvMatch extractedCVInfo)).take 15

/-- A question as parsed from the JSON array of the model response (no id yet). -/
structure ParsedQuestion where
  type : QuestionType
  question : String
  purpose : String
  priority : Priority
  deriving Repr, DecidableEq

/-- AI path plus fallback of `generateQuestionsFromAnalysis`.  `aiParsed`
is the combined outcome of the `generateText` call, the `[...]` regex
extraction and `JSON.parse`: `some l` when a JSON array was parsed, `none`
when the call threw or no array was found (both cases fall back to
`generateDefaultQuestions`).  `now` is `Date.now()` used in the ids. -/
def generateQuestionsFromAnalysis (jobAnalysis : JobAnalysis)
    (cvMatch : Option CVMatchAnalysis) (extractedCVInfo : Option ExtractedCVInfo)
    (aiParsed : Option (List ParsedQuestion)) (now : Nat) : List GeneratedQuestion :=
  match aiParsed with
  | some parsed =>
    parsed.mapIdx fun index q =>
      { id := "q-" ++ toString now ++ "-" ++ toString index
        type := q.type
        question := q.question
        purpose := q.purpose
        priority := q.priority }
  | none => generateDefaultQuestions jobAnalysis cvMatch extractedCVInfo

/-- Sample candidate profile used for concrete evaluations. -/
def sampleProfile : CandidateProfile :=
  { experienceLevel := "Senior"
    keySkills := ["python", "sql"]
    personalityTraits := []
    education := "Not specified" }

/-- Sample job analysis used for concrete evaluations. -/
def sampleJobAnalysis : JobAnalysis :=
  { businessType := "Tech Startup"
    industry := "Software"
    candidateProfile := sampleProfile
    values := []
    keyRequirements := ["Experience building python services"]
    writingStyle := "Professional"
    domainStandards := "Standard professional CV format"
    missingInfo := [] }

/-- Sample extracted CV info whose personal-info flag is set. -/
def sampleCVInfoWithPersonal : ExtractedCVInfo :=
  { personalInfo := { email := some "a@b.cd" }
    experience := []
    education := []
    skills := []
    certifications := []
    hasPersonalInfo := true
    hasExperience := false
    hasEducation := false
    hasSkills := false }

/-- Sample AI-parsed question used for concrete evaluations. -/
def sampleParsedQuestion : ParsedQuestion :=
  { type := QuestionType.skills
    question := "Do you have experience with python?"
    purpose := "Check a key skill"
    priority := Priority.high }

/-- The padding loop always reaches at least 10 questions. -/
theorem padQuestions_length_ge (ja : JobAnalysis) :
    ∀ n (qs : List GeneratedQuestion), 10 - qs.length ≤ n →
      10 ≤ (padQuestions ja qs).length := by
  intro n
  induction n with
  | zero =>
    intro qs hle
    rw [padQuestions]
    split
    · omega
    · omega
  | succ n ih =>
    intro qs hle
    rw [padQuestions]
    split
    · next hlt =>
      apply ih
      simp only [List.length_append, List.length_singleton]
      omega
    · next hge => omega

/-- The padding loop never shrinks the list. -/
theorem padQuestions_length_le (ja : JobAnalysis) :
    ∀ n (qs : List GeneratedQuestion), 10 - qs.length ≤ n →
      (padQuestions ja qs).length ≤ max 10 qs.length := by
  intro n
  induction n with
  | zero =>
    intro qs hle
    rw [padQuestions]
    split
    · omega
    · omega
  | succ n ih =>
    intro qs hle
    rw [padQuestions]
    split
    · next hlt =>
      have := ih (qs ++ [padQuestion ja qs.length])
        (by simp only [List.length_append, List.length_singleton]; omega)
      simp only [List.length_append, List.length_singleton] at this
      omega
    · next hge => omega

/-- A property preserved by the padding questions is preserved by the loop. -/
theorem padQuestions_forall (ja : JobAnalysis) (P : GeneratedQuestion → Prop)
    (hpad : ∀ n, P (padQuestion ja n)) :
    ∀ n (qs : List GeneratedQuestion), 10 - qs.length ≤ n →
      (∀ q ∈ qs, P q) → ∀ q ∈ padQuestions ja qs, P q := by
  intro n
  induction n with
  | zero =>
    intro qs hle hqs
    rw [padQuestions]
    split
    · next hlt =>
      intro q hq
      exact absurd hlt (by omega)
    · exact fun q hq => hqs q hq
  | succ n ih =>
    intro qs hle hqs
    rw [padQuestions]
    split
    · next hlt =>
      apply ih
      · simp only [List.length_append, List.length_singleton]; omega
      · intro q hq
        rcases List.mem_append.mp hq with hq | hq
        · exact hqs q hq
        · rcases List.mem_singleton.mp hq with rfl
          exact hpad qs.length
    · exact fun q hq => hqs q hq

/-- Splitting a universally quantified membership over an append. -/
theorem forall_mem_append_pair {α : Type} {P : α → Prop} {l₁ l₂ : List α}
    (h₁ : ∀ a ∈ l₁, P a) (h₂ : ∀ a ∈ l₂, P a) : ∀ a ∈ l₁ ++ l₂, P a := by
  intro a ha
  rcases List.mem_append.mp ha with ha | ha
  · exact h₁ a ha
  · exact h₂ a ha

/-- When the CV already has personal info the personal-info push is empty. -/
theorem personalSeg_of_hasPersonal (info : ExtractedCVInfo)
    (h : info.hasPersonalInfo = true) : personalSeg (some info) = [] := by
  simp [personalSeg, optFlag, h]

/-- The experience push only produces experience-type questions. -/
theorem expSeg_types (ja : JobAnalysis) (info : Option ExtractedCVInfo) (n : Nat) :
    ∀ q ∈ expSeg ja info n, q.type = QuestionType.experience := by
  intro q hq
  unfold expSeg at hq
  split at hq <;> rcases List.mem_singleton.mp hq with rfl <;> rfl

/-- The skills push only produces skills-type questions. -/
theorem skillsSeg_types (ja : JobAnalysis) (cvMatch : Option CVMatchAnalysis)
    (info : Option ExtractedCVInfo) (n : Nat) :
    ∀ q ∈ skillsSeg ja cvMatch info n, q.type = QuestionType.skills := by
  intro q hq
  unfold skillsSeg at hq
  split at hq
  · rcases List.mem_singleton.mp hq with rfl; rfl
  · split at hq
    · split at hq
      · rcases List.mem_singleton.mp hq with rfl; rfl
      · exact absurd hq (List.not_mem_nil q)
    · exact absurd hq (List.not_mem_nil q)

/-- The education push only produces education-type questions. -/
theorem eduSeg_types (ja : JobAnalysis) (info : Option ExtractedCVInfo) (n : Nat) :
    ∀ q ∈ eduSeg ja info n, q.type = QuestionType.education := by
  intro q hq
  unfold eduSeg at hq
  split at hq
  · rcases List.mem_singleton.mp hq with rfl; rfl
  · exact absurd hq (List.not_mem_nil q)

/-- Every question in the base list built with the personal-info flag set
has a type other than personal_info. -/
theorem defaultQuestionsBase_no_personal (ja : JobAnalysis) (cvMatch : Option CVMatchAnalysis)
    (info : ExtractedCVInfo) (h : info.hasPersonalInfo = true) :
    ∀ q ∈ defaultQuestionsBase ja cvMatch (some info),
      q.type ≠ QuestionType.personal_info := by
  unfold defaultQuestionsBase
  rw [personalSeg_of_hasPersonal info h]
  apply forall_mem_append_pair
  · apply forall_mem_append_pair
    · apply forall_mem_append_pair
      · apply forall_mem_append_pair
        · intro q hq; exact absurd hq (List.not_mem_nil q)
        · intro q hq; rw [expSeg_types ja (some info) _ q hq]; decide
      · intro q hq; rw [skillsSeg_types ja cvMatch (some info) _ q hq]; decide
    · intro q hq; rw [eduSeg_types ja (some info) _ q hq]; decide
  · intro q hq
    rcases List.mem_cons.mp hq with rfl | hq
    · exact fun hcon => QuestionType.noConfusion hcon
    · rcases List.mem_singleton.mp hq with rfl
      exact fun hcon => QuestionType.noConfusion hcon

/-- C1 (amended): every output of the deterministic fallback path
`generateDefaultQuestions` has between 10 and 15 questions; the AI-parse
path returns the parsed list unchanged, so the bound is guaranteed only for
the fallback path. -/
theorem c1_fallback_question_count (ja : JobAnalysis) (cvMatch : Option CVMatchAnalysis)
    (cvInfo : Option ExtractedCVInfo) :
    10 ≤ (generateDefaultQuestions ja cvMatch cvInfo).length ∧
      (generateDefaultQuestions ja cvMatch cvInfo).length ≤ 15 := by
  unfold generateDefaultQuestions
  have h10 := padQuestions_length_ge ja 10 (defaultQuestionsBase ja cvMatch cvInfo) (by omega)
  constructor
  · rw [List.length_take]; omega
  · rw [List.length_take]; omega

/-- C1 (counterexample): when the AI-parse path yields a one-element JSON
array, the route returns exactly that one question unpadded, violating the
claimed lower bound of 10. -/
theorem c1_counterexample :
    (generateQuestionsFromAnalysis sampleJobAnalysis none none
        (some [sampleParsedQuestion]) 0).length = 1 ∧
      ¬ 10 ≤ (generateQuestionsFromAnalysis sampleJobAnalysis none none
        (some [sampleParsedQuestion]) 0).length := by
  have h1 : (generateQuestionsFromAnalysis sampleJobAnalysis none none
      (some [sampleParsedQuestion]) 0).length = 1 := rfl
  exact ⟨h1, by rw [h1]; omega⟩

/-- C7: when the extracted CV info has hasPersonalInfo set, no question
produced by the fallback path `generateDefaultQuestions` has type
personal_info — neither the conditional pushes nor the padding. -/
theorem c7_no_personal_info_question (ja : JobAnalysis) (cvMatch : Option CVMatchAnalysis)
    (info : ExtractedCVInfo) (h : info.hasPersonalInfo = true) :
    QuestionType.personal_info ∉
      (generateDefaultQuestions ja cvMatch (some info)).map GeneratedQuestion.type := by
  intro hmem
  rcases List.mem_map.mp hmem with ⟨q, hq, hty⟩
  have hq2 : q ∈ padQuestions ja (defaultQuestionsBase ja cvMatch (some info)) :=
    List.mem_of_mem_take hq
  have hall := padQuestions_forall ja (fun q => q.type ≠ QuestionType.personal_info)
    (fun n => fun hcon => QuestionType.noConfusion hcon) 10
    (defaultQuestionsBase ja cvMatch (some info)) (by omega)
    (defaultQuestionsBase_no_personal ja cvMatch info h) q hq2
  exact hall hty

/-- C7 witness: concrete instantiation with the sample CV info whose
personal-info flag is set. -/
theorem c7_no_personal_info_question_witness :
    sampleCVInfoWithPersonal.hasPersonalInfo = true ∧
      QuestionType.personal_info ∉
        (generateDefaultQuestions sampleJobAnalysis none (some sampleCVInfoWithPersonal)).map
          GeneratedQuestion.type :=
  ⟨rfl, c7_no_personal_info_question sampleJobAnalysis none sampleCVInfoWithPersonal rfl⟩

/- Model identifier constants (shared/constants).  The constants file
version referencing GLM_FLASH is not among the provided sources; its other
values follow the constants versions that are, and GLM_FLASH carries the
GLM-4.7-Flash identifier the current service hardcodes and names in its
comments.  No claim below depends on the concrete identifier strings. -/
namespace HUGGINGFACE_MODELS

/-- Primary model for CV generation. -/
def CV_GENERATION : String := "meta-llama/Meta-Llama-3.1-8B-Instruct"

/-- GLM flash model, first entry of the fallback list. -/
def GLM_FLASH : String := "zai-org/GLM-4.7-Flash"

/-- First classic fallback model. -/
def FALLBACK : String := "mistralai/Mistral-7B-Instruct-v0.2"

/-- Second fallback model. -/
def ALTERNATIVE_FALLBACK : String := "mistralai/Mistral-7B-Instruct-v0.1"

/-- Last-resort fallback model. -/
def LAST_RESORT : String := "microsoft/Phi-3-mini-4k-instruct"

end HUGGINGFACE_MODELS

/-- JS `String.prototype.includes` on Lean strings. -/
def jsIncludes (s sub : String) : Bool := decide (sub.data <:+: s.data)

/-- Model-name heuristic of generateText: conversational mode when the
identifier contains any of twelve fixed substrings. -/
def requiresConversational (model : String) : Bool :=
  jsIncludes model "mistralai" ||
  jsIncludes model "Mistral" ||
  jsIncludes model "llama" ||
  jsIncludes model "Llama" ||
  jsIncludes model "meta-llama" ||
  jsIncludes model "GLM" ||
  jsIncludes model "glm" ||
  jsIncludes model "Qwen" ||
  jsIncludes model "qwen" ||
  jsIncludes model "chat" ||
  jsIncludes model "instruct" ||
  jsIncludes model "Instruct"

/-- One upstream request as issued by generateText. -/
structure UpstreamRequest where
  conversational : Bool
  modelSent : String
  prompt : String
  maxTokens : Nat
  deriving Repr, DecidableEq

/-- Request built inside the try-block of generateText: the mode follows the
model-name heuristic applied to the `model` parameter, but both the
chatCompletion and the textGeneration branch pass the string literal
"zai-org/GLM-4.7-Flash" as the model field of the request body, not the
`model` parameter. -/
def requestFor (prompt model : String) (maxLength : Nat) : UpstreamRequest :=
  { conversational := requiresConversational model
    modelSent := "zai-org/GLM-4.7-Flash"
    prompt := prompt
    maxTokens := maxLength }

/-- Outcome of one upstream network call: generated text, a provider error
(`InferenceClientProviderApiError`, the class that triggers the fallback
chain), or any other transport error. -/
inductive UpOutcome where
  | ok (text : String)
  | providerErr
  | otherErr
  deriving Repr, DecidableEq

/-- Error raised inside the try-block of generateText, before the catch
classifies it. -/
inductive TryError where
  | emptyResponse
  | providerErr
  | otherErr
  deriving Repr, DecidableEq

/-- Error surfaced by generateText to its caller. -/
inductive GenError where
  | emptyResponse
  | diagnostic
  | other
  deriving Repr, DecidableEq

/-- The try-block of generateText: issue the request built by `requestFor`
and extract the text.  In conversational mode an empty content throws a
dedicated empty-response error; in plain-completion mode the code returns
`response.generated_text || ''`, so any text — including the empty string —
is a success. -/
def singleAttempt (outcome : UpstreamRequest → UpOutcome) (prompt model : String)
    (maxLength : Nat) : Except TryError String :=
  match outcome (requestFor prompt model maxLength) with
  | UpOutcome.ok t =>
    if requiresConversational model then
      if t = "" then Except.error TryError.emptyResponse else Except.ok t
    else Except.ok t
  | UpOutcome.providerErr => Except.error TryError.providerErr
  | UpOutcome.otherErr => Except.error TryError.otherErr

/-- Ordered fallback model list of generateText. -/
def fallbackModels : List String :=
  [HUGGINGFACE_MODELS.GLM_FLASH,
   HUGGINGFACE_MODELS.FALLBACK,
   HUGGINGFACE_MODELS.ALTERNATIVE_FALLBACK,
   HUGGINGFACE_MODELS.LAST_RESORT]

/-- Behaviour of a recursive generateText call on a model that is a member
of the fallback list: one attempt; on a provider error the membership guard
skips the fallback loop and the composite diagnostic error is thrown; other
errors are re-thrown unchanged.  The second component counts upstream
attempts. -/
def fallbackCall (outcome : UpstreamRequest → UpOutcome) (prompt model : String)
    (maxLength : Nat) : Except GenError String × Nat :=
  match singleAttempt outcome prompt model maxLength with
  | Except.ok t => (Except.ok t, 1)
  | Except.error TryError.providerErr => (Except.error GenError.diagnostic, 1)
  | Except.error TryError.emptyResponse => (Except.error GenError.emptyResponse, 1)
  | Except.error TryError.otherErr => (Except.error GenError.other, 1)

/-- The for-loop over fallback models: each iteration awaits a recursive
generateText call and returns its text on success, continuing on any
error.  Returns the first successful text, with the total attempt count. -/
def tryFallbacks (outcome : UpstreamRequest → UpOutcome) (prompt : String)
    (maxLength : Nat) : List String → Option String × Nat
  | [] => (none, 0)
  | m :: rest =>
    match fallbackCall outcome prompt m maxLength with
    | (Except.ok t, n) => (some t, n)
    | (Except.error _, n) =>
      let r := tryFallbacks outcome prompt maxLength rest
      (r.1, n + r.2)

/-- generateText of the current service: one attempt; on a provider error,
if the model is not itself in the fallback list, try each fallback model in
order and raise the composite diagnostic error when all fail; non-provider
errors are re-thrown without any fallback.  The second component counts
upstream attempts. -/
def generateTextRun (outcome : UpstreamRequest → UpOutcome) (prompt model : String)
    (maxLength : Nat) : Except GenError String × Nat :=
  match singleAttempt outcome prompt model maxLength with
  | Except.ok t => (Except.ok t, 1)
  | Except.error TryError.providerErr =>
    if fallbackModels.contains model then
      (Except.error GenError.diagnostic, 1)
    else
      match tryFallbacks outcome prompt maxLength fallbackModels with
      | (some t, n) => (Except.ok t, 1 + n)
      | (none, n) => (Except.error GenError.diagnostic, 1 + n)
  | Except.error TryError.emptyResponse => (Except.error GenError.emptyResponse, 1)
  | Except.error TryError.otherErr => (Except.error GenError.other, 1)

/-- Justification of the two-layer embedding: on a member of the fallback
list the full generateText behaves exactly like `fallbackCall`, because the
membership guard suppresses the fallback loop; hence modelling the loop
body with `fallbackCall` is faithful to the recursive self-call. -/
theorem generateTextRun_eq_fallbackCall (outcome : UpstreamRequest → UpOutcome)
    (prompt model : String) (maxLength : Nat)
    (h : fallbackModels.contains model = true) :
    generateTextRun outcome prompt model maxLength =
      fallbackCall outcome prompt model maxLength := by
  unfold generateTextRun fallbackCall
  cases hs : singleAttempt outcome prompt model maxLength with
  | ok t => rfl
  | error e =>
    cases e
    · rfl
    · rw [if_pos h]
    · rfl

/-- If every model in a list fails its attempt, the fallback loop returns no
text and makes exactly one attempt per model. -/
theorem tryFallbacks_all_fail (outcome : UpstreamRequest → UpOutcome)
    (prompt : String) (maxLength : Nat) :
    ∀ l : List String,
      (∀ m ∈ l, ∃ e, singleAttempt outcome prompt m maxLength = Except.error e) →
      tryFallbacks outcome prompt maxLength l = (none, l.length) := by
  intro l
  induction l with
  | nil => intro _; rfl
  | cons m rest ih =>
    intro hall
    obtain ⟨e, he⟩ := hall m (List.mem_cons_self m rest)
    have hrest := ih (fun m hm => hall m (List.mem_cons_of_mem _ hm))
    unfold tryFallbacks fallbackCall
    rw [he]
    cases e <;> simp [hrest, Nat.add_comm]

/-- C3 (code evaluation): the upstream request issued for the fallback model
identifier carries the hardcoded GLM identifier, not the model parameter, so
a fallback retry re-issues the request against the same upstream model. -/
theorem c3_model_not_forwarded :
    (requestFor "Prompt" HUGGINGFACE_MODELS.FALLBACK 2000).modelSent =
        "zai-org/GLM-4.7-Flash" ∧
      (requestFor "Prompt" HUGGINGFACE_MODELS.FALLBACK 2000).modelSent ≠
        HUGGINGFACE_MODELS.FALLBACK := by
  exact ⟨rfl, by decide⟩

/-- C4: when the primary model (not itself a fallback model) fails with a
provider error and every fallback model also fails, generateText raises the
composite diagnostic error after exactly 1 + fallbackModels.length upstream
attempts. -/
theorem c4_attempt_count (outcome : UpstreamRequest → UpOutcome)
    (prompt model : String) (maxLength : Nat)
    (hnot : fallbackModels.contains model = false)
    (hp : singleAttempt outcome prompt model maxLength = Except.error TryError.providerErr)
    (hf : ∀ m ∈ fallbackModels, ∃ e, singleAttempt outcome prompt m maxLength = Except.error e) :
    generateTextRun outcome prompt model maxLength =
      (Except.error GenError.diagnostic, 1 + fallbackModels.length) := by
  unfold generateTextRun
  rw [hp]
  rw [if_neg (by rw [hnot]; exact Bool.false_ne_true)]
  rw [tryFallbacks_all_fail outcome prompt maxLength fallbackModels hf]

/-- Upstream environment in which every request gets a provider error. -/
def allProviderErr : UpstreamRequest → UpOutcome := fun _ => UpOutcome.providerErr

/-- C4 witness: with a primary model outside the fallback list and a
provider error on every request, generateText makes exactly five attempts
and raises the diagnostic error. -/
theorem c4_attempt_count_witness :
    fallbackModels.contains "gpt2" = false ∧
      generateTextRun allProviderErr "Prompt" "gpt2" 2000 =
        (Except.error GenError.diagnostic, 1 + fallbackModels.length) := by
  refine ⟨by decide, ?_⟩
  exact c4_attempt_count allProviderErr "Prompt" "gpt2" 2000 (by decide) rfl
    (fun m _ => ⟨TryError.providerErr, rfl⟩)

/-- C5 (amended): the empty-text-is-failure rule holds only in
conversational mode; in plain-completion mode the attempt succeeds with
whatever text the upstream returned, the empty string included. -/
theorem c5_empty_text_by_mode (outcome : UpstreamRequest → UpOutcome)
    (prompt model : String) (maxLength : Nat) :
    (requiresConversational model = true →
      outcome (requestFor prompt model maxLength) = UpOutcome.ok "" →
      singleAttempt outcome prompt model maxLength = Except.error TryError.emptyResponse) ∧
    (requiresConversational model = false →
      ∀ t, outcome (requestFor prompt model maxLength) = UpOutcome.ok t →
      singleAttempt outcome prompt model maxLength = Except.ok t) := by
  constructor
  · intro hc ho
    unfold singleAttempt
    rw [ho]
    simp [hc]
  · intro hc t ho
    unfold singleAttempt
    rw [ho]
    simp [hc]

/-- Upstream environment in which every request returns empty text. -/
def allEmptyOk : UpstreamRequest → UpOutcome := fun _ => UpOutcome.ok ""

/-- C5 counterexample: for a non-conversational model identifier, empty
generated text is returned by generateText as a successful empty-string
result, not signalled as an error. -/
theorem c5_counterexample :
    requiresConversational "gpt2" = false ∧
      (generateTextRun allEmptyOk "Prompt" "gpt2" 2000).1 = Except.ok "" := by
  exact ⟨by decide, rfl⟩

/-- C5 witness: both conjuncts of the amended claim instantiated — the
conversational GLM identifier turns empty text into the empty-response
error, while the plain-completion identifier returns it as success. -/
theorem c5_empty_text_by_mode_witness :
    requiresConversational "zai-org/GLM-4.7-Flash" = true ∧
      singleAttempt allEmptyOk "Prompt" "zai-org/GLM-4.7-Flash" 2000 =
        Except.error TryError.emptyResponse ∧
      requiresConversational "gpt2" = false ∧
      singleAttempt allEmptyOk "Prompt" "gpt2" 2000 = Except.ok "" := by
  refine ⟨by decide, ?_, by decide, ?_⟩
  · exact (c5_empty_text_by_mode allEmptyOk "Prompt" "zai-org/GLM-4.7-Flash" 2000).1
      (by decide) rfl
  · exact (c5_empty_text_by_mode allEmptyOk "Prompt" "gpt2" 2000).2 (by decide) "" rfl

/-- The recognized credential environment variable names, in the fixed
precedence order of the source. -/
def recognizedTokenVars : List String :=
  ["HUGGINGFACE_API_TOKEN",
   "NEXT_PUBLIC_HUGGINGFACE_API_TOKEN",
   "HF_TOKEN",
   "HF_API_TOKEN"]

/-- JS truthiness of an environment variable value: `undefined` and the
empty string are falsy. -/
def jsTruthy : Option String → Bool
  | some s => !(s == "")
  | none => false

/-- JS `a || b` on environment values: the left operand when truthy,
otherwise the right operand. -/
def orTruthy (a b : Option String) : Option String :=
  if jsTruthy a then a else b

/-- The token chain of getHfClient:
`env.A || env.B || env.C || env.D` (nested right, which agrees with the
left-associated JS parse since the or-chain yields the first truthy value
and otherwise the last operand). -/
def resolveToken (env : String → Option String) : Option String :=
  orTruthy (env "HUGGINGFACE_API_TOKEN")
    (orTruthy (env "NEXT_PUBLIC_HUGGINGFACE_API_TOKEN")
      (orTruthy (env "HF_TOKEN") (env "HF_API_TOKEN")))

/-- One step of the spec-side resolver: a defined, non-empty value passes
through, anything else is skipped. -/
def tokenStep : Option String → Option String
  | some s => if s == "" then none else some s
  | none => none

/-- Resolver written from the spec words: return the first non-empty value
among the recognized names. -/
def specFirstNonEmpty (env : String → Option String) : Option String :=
  recognizedTokenVars.findSome? fun name => tokenStep (env name)

/-- Model of the current InferenceClient: it accepts a possibly-undefined
token without complaint. -/
structure InferenceClientModel where
  token : Option String
  deriving Repr, DecidableEq

/-- Current getHfClient (InferenceClient-based service): resolve the token
chain and construct the client unconditionally — there is no
missing-credential check and no error path. -/
def getHfClient (env : String → Option String) : InferenceClientModel :=
  { token := resolveToken env }

/-- Configuration error of the legacy getHfClient. -/
inductive TokenError where
  | missingToken
  deriving Repr, DecidableEq

/-- Model of the legacy HfInference client, which requires a token. -/
structure HfInferenceModel where
  token : String
  deriving Repr, DecidableEq

/-- Whitespace trim on character lists (both ends). -/
def trimChars (l : List Char) : List Char :=
  ((l.dropWhile Char.isWhitespace).reverse.dropWhile Char.isWhitespace).reverse

/-- JS `String.prototype.trim` (ASCII whitespace), as a kernel-reducible
list recursion. -/
def jsTrim (s : String) : String := String.mk (trimChars s.data)

/-- Legacy getHfClient (HfInference-based service): resolve the same chain,
then throw a configuration error when the value is falsy or trims to the
empty string. -/
def legacyGetHfClient (env : String → Option String) : Except TokenError HfInferenceModel :=
  match resolveToken env with
  | some t =>
    if jsTrim t = "" then Except.error TokenError.missingToken
    else Except.ok { token := t }
  | none => Except.error TokenError.missingToken

/-- A truthy environment value is a non-empty string. -/
theorem jsTruthy_shape (v : Option String) (h : jsTruthy v = true) :
    ∃ s, v = some s ∧ (s == "") = false := by
  cases v with
  | none => exact absurd h (by simp [jsTruthy])
  | some s =>
    refine ⟨s, rfl, ?_⟩
    simpa [jsTruthy] using h

/-- tokenStep passes a truthy value through unchanged. -/
theorem tokenStep_truthy (v : Option String) (h : jsTruthy v = true) :
    tokenStep v = v := by
  obtain ⟨s, rfl, hne⟩ := jsTruthy_shape v h
  simp [tokenStep, hne]

/-- tokenStep drops a falsy value. -/
theorem tokenStep_falsy (v : Option String) (h : jsTruthy v = false) :
    tokenStep v = none := by
  cases v with
  | none => rfl
  | some s =>
    have hs : (s == "") = true := by simpa [jsTruthy] using h
    simp [tokenStep, hs]

/-- C6 (amended): the `||` chain of both getHfClient versions returns the
first non-empty recognized variable whenever one exists (it agrees with the
spec-side first-non-empty resolver); when every recognized variable is
unset or empty, only the legacy HfInference-based getHfClient signals the
missing-credential configuration error — the current InferenceClient-based
getHfClient constructs the client with a falsy token and no error. -/
theorem c6_token_resolution (env : String → Option String) :
    (jsTruthy (resolveToken env) = true →
      resolveToken env = specFirstNonEmpty env) ∧
    ((∀ n ∈ recognizedTokenVars, jsTruthy (env n) = false) →
      legacyGetHfClient env = Except.error TokenError.missingToken ∧
      getHfClient env = { token := resolveToken env } ∧
      jsTruthy (getHfClient env).token = false) := by
  constructor
  · intro ht
    unfold resolveToken at ht ⊢
    unfold specFirstNonEmpty recognizedTokenVars
    cases h1 : jsTruthy (env "HUGGINGFACE_API_TOKEN") with
    | true =>
      obtain ⟨s, hs, hne⟩ := jsTruthy_shape _ h1
      have hne2 : ¬ s = "" := by simpa using hne
      rw [orTruthy, if_pos h1, hs]
      simp [List.findSome?_cons, hs, tokenStep, hne2]
    | false =>
      rw [orTruthy, if_neg (by rw [h1]; exact Bool.false_ne_true)] at ht ⊢
      rw [List.findSome?_cons, tokenStep_falsy _ h1]
      cases h2 : jsTruthy (env "NEXT_PUBLIC_HUGGINGFACE_API_TOKEN") with
      | true =>
        obtain ⟨s, hs, hne⟩ := jsTruthy_shape _ h2
        have hne2 : ¬ s = "" := by simpa using hne
        rw [orTruthy, if_pos h2, hs]
        simp [List.findSome?_cons, hs, tokenStep, hne2]
      | false =>
        rw [orTruthy, if_neg (by rw [h2]; exact Bool.false_ne_true)] at ht ⊢
        rw [List.findSome?_cons, tokenStep_falsy _ h2]
        cases h3 : jsTruthy (env "HF_TOKEN") with
        | true =>
          obtain ⟨s, hs, hne⟩ := jsTruthy_shape _ h3
          have hne2 : ¬ s = "" := by simpa using hne
          rw [orTruthy, if_pos h3, hs]
          simp [List.findSome?_cons, hs, tokenStep, hne2]
        | false =>
          rw [orTruthy, if_neg (by rw [h3]; exact Bool.false_ne_true)] at ht ⊢
          rw [List.findSome?_cons, tokenStep_falsy _ h3]
          obtain ⟨s, hs, hne⟩ := jsTruthy_shape _ ht
          have hne2 : ¬ s = "" := by simpa using hne
          simp [List.findSome?_cons, hs, tokenStep, hne2]
  · intro hall
    have h1 := hall "HUGGINGFACE_API_TOKEN" (by simp [recognizedTokenVars])
    have h2 := hall "NEXT_PUBLIC_HUGGINGFACE_API_TOKEN" (by simp [recognizedTokenVars])
    have h3 := hall "HF_TOKEN" (by simp [recognizedTokenVars])
    have h4 := hall "HF_API_TOKEN" (by simp [recognizedTokenVars])
    have hres : resolveToken env = env "HF_API_TOKEN" := by
      unfold resolveToken
      rw [orTruthy, if_neg (by rw [h1]; exact Bool.false_ne_true)]
      rw [orTruthy, if_neg (by rw [h2]; exact Bool.false_ne_true)]
      rw [orTruthy, if_neg (by rw [h3]; exact Bool.false_ne_true)]
    refine ⟨?_, rfl, ?_⟩
    · unfold legacyGetHfClient
      rw [hres]
      cases henv : env "HF_API_TOKEN" with
      | none => rfl
      | some s =>
        rw [henv] at h4
        have hs : s = "" := by simpa [jsTruthy] using h4
        subst hs
        show (if jsTrim "" = "" then Except.error TokenError.missingToken
          else Except.ok { token := "" }) = Except.error TokenError.missingToken
        rw [if_pos (by decide)]
    · show jsTruthy (resolveToken env) = false
      rw [hres, h4]

/-- Environment with a token only in HF_TOKEN. -/
def envOnlyHfToken : String → Option String :=
  fun n => if n = "HF_TOKEN" then some "hf_token_value" else none

/-- Environment with no credential variable set. -/
def envNoToken : String → Option String := fun _ => none

/-- C6 witness: with only HF_TOKEN set the chain resolves to it and agrees
with the spec-side resolver; with nothing set, the legacy client errors
while the current client is constructed with a falsy token. -/
theorem c6_token_resolution_witness :
    jsTruthy (resolveToken envOnlyHfToken) = true ∧
      resolveToken envOnlyHfToken = specFirstNonEmpty envOnlyHfToken ∧
      (∀ n ∈ recognizedTokenVars, jsTruthy (envNoToken n) = false) ∧
      legacyGetHfClient envNoToken = Except.error TokenError.missingToken ∧
      getHfClient envNoToken = { token := resolveToken envNoToken } ∧
      jsTruthy (getHfClient envNoToken).token = false := by
  have hw := (c6_token_resolution envOnlyHfToken).1 (by decide)
  have hn := (c6_token_resolution envNoToken).2 (fun n _ => rfl)
  exact ⟨by decide, hw, fun n _ => rfl, hn.1, hn.2.1, hn.2.2⟩

/-- ASCII lower-casing of one character (JS toLowerCase restricted to the
ASCII range the heuristics operate on). -/
def jsCharToLower (c : Char) : Char :=
  if 'A' ≤ c ∧ c ≤ 'Z' then Char.ofNat (c.toNat + 32) else c

/-- JS `String.prototype.toLowerCase`, as a kernel-reducible list map. -/
def jsToLower (s : String) : String := String.mk (s.data.map jsCharToLower)

/-- Accumulator-based splitting of a character list into maximal runs of
non-separator characters. -/
def wordsAux (p : Char → Bool) : List Char → List Char → List (List Char)
  | [], acc => if acc.isEmpty then [] else [acc.reverse]
  | c :: rest, acc =>
    if p c then
      if acc.isEmpty then wordsAux p rest []
      else acc.reverse :: wordsAux p rest []
    else wordsAux p rest (c :: acc)

/-- JS `s.split(/\s+/)` restricted to its non-empty tokens.  The only
boundary tokens JS split may additionally produce are empty strings, and
every use in the source immediately filters by a positive length. -/
def jsSplitWsWords (s : String) : List String :=
  (wordsAux Char.isWhitespace s.data []).map String.mk

/-- JS `w.replace(/[^\w]/g, '')`: keep only word characters. -/
def stripNonWord (w : String) : String :=
  String.mk (w.data.filter (fun c => c.isAlphanum || c = '_'))

/-- The word set built by calculateKeywordOverlap from one text: lower-case,
split on whitespace, keep words longer than 4, strip non-word characters,
and collapse to a set (deduplicated list; only membership and cardinality
are used). -/
def wordSet (s : String) : List String :=
  (((jsSplitWsWords (jsToLower s)).filter (fun w => w.length > 4)).map stripNonWord).dedup

/-- calculateKeywordOverlap of cvAnalyzer.service: fraction of job-text
words present in the CV text, 0 when the job word set is empty. -/
def calculateKeywordOverlap (cvContent jobDescription : String) : ℚ :=
  let cvWords := wordSet cvContent
  let jobWords := wordSet jobDescription
  let matchCount := (jobWords.filter (fun w => cvWords.contains w)).length
  if jobWords.length > 0 then (matchCount : ℚ) / (jobWords.length : ℚ) else 0

/-- JS `Math.round`: round half towards positive infinity. -/
def jsRound (q : ℚ) : ℤ := Rat.floor (q + 1 / 2)

/-- generateRecommendations of cvAnalyzer.service. -/
def generateRecommendations (missingSkills missingRequirements : List String) :
    List String :=
  let recommendations : List String := []
  let recommendations :=
    if missingSkills.length > 0 then
      recommendations ++
        ["Highlight experience with: " ++ String.intercalate ", " (missingSkills.take 3)]
    else recommendations
  let recommendations :=
    if missingRequirements.length > 0 then
      recommendations ++ ["Address requirement: " ++ missingRequirements.headD ""]
    else recommendations
  if recommendations.length = 0 then
    ["CV looks well-matched! Consider adding more specific achievements."]
  else recommendations

/-- Requirement matching of calculateBasicMatch: a requirement matches when
any of its significant words (length above 4, lower-cased) occurs in the
lower-cased CV text. -/
def reqHasMatch (cvLower req : String) : Bool :=
  ((jsSplitWsWords (jsToLower req)).filter (fun w => w.length > 4)).any
    (fun word => jsIncludes cvLower word)

/-- calculateBasicMatch of cvAnalyzer.service: keyword-based fallback
scoring.  Skill and requirement coverage are weighted 40% each and keyword
overlap 20%; the rounded sum gets a +5 bonus (capped at 100) for CVs longer
than 500 characters and is clamped to [0, 100]. -/
def calculateBasicMatch (cvContent jobDescription : String) (jobAnalysis : JobAnalysis) :
    CVMatchAnalysis :=
  let cvLower := jsToLower cvContent
  let matchedSkills := jobAnalysis.candidateProfile.keySkills.filter
    (fun skill => jsIncludes cvLower (jsToLower skill))
  let missingSkills := jobAnalysis.candidateProfile.keySkills.filter
    (fun skill => !(jsIncludes cvLower (jsToLower skill)))
  let matchedRequirements := jobAnalysis.keyRequirements.filter
    (fun req => reqHasMatch cvLower req)
  let missingRequirements := jobAnalysis.keyRequirements.filter
    (fun req => !(reqHasMatch cvLower req))
  let totalSkills := max 1 jobAnalysis.candidateProfile.keySkills.length
  let totalRequirements := max 1 jobAnalysis.keyRequirements.length
  let skillScore : ℚ := ((matchedSkills.length : ℚ) / (totalSkills : ℚ)) * 40
  let requirementScore : ℚ :=
    ((matchedRequirements.length : ℚ) / (totalRequirements : ℚ)) * 40
  let keywordOverlap := calculateKeywordOverlap cvContent jobDescription
  let keywordScore := keywordOverlap * 20
  let rounded : ℤ := jsRound (skillScore + requirementScore + keywordScore)
  let withBonus : ℤ := if cvContent.length > 500 then min 100 (rounded + 5) else rounded
  let matchScore : ℤ := max 0 (min 100 withBonus)
  { matchScore := (matchScore : ℚ)
    matchedSkills := matchedSkills
    missingSkills := missingSkills
    matchedRequirements := matchedRequirements
    missingRequirements := missingRequirements
    semanticGaps := missingRequirements.take 5
    recommendations := generateRecommendations missingSkills missingRequirements }

/-- The JSON object parsed from the model response in analyzeCVMatch, before
validation: a non-number or absent matchScore is `none`, and each array may
be absent. -/
structure AiMatchParsed where
  matchScore : Option ℚ
  matchedSkills : Option (List String) := none
  missingSkills : Option (List String) := none
  matchedRequirements : Option (List String) := none
  missingRequirements : Option (List String) := none
  semanticGaps : Option (List String) := none
  recommendations : Option (List String) := none
  deriving Repr, DecidableEq

/-- analyzeCVMatch of cvAnalyzer.service.  `aiParsed` is the combined
outcome of the generateText call, the JSON extraction regexes and
JSON.parse (`none` for a thrown error, no JSON found, or a parse failure).
A parsed value is returned only when its matchScore is a number within
[0, 100], with absent arrays defaulted to empty; every other path falls
back to calculateBasicMatch. -/
def analyzeCVMatch (cvContent jobDescription : String) (jobAnalysis : JobAnalysis)
    (aiParsed : Option AiMatchParsed) : CVMatchAnalysis :=
  match aiParsed with
  | some parsed =>
    match parsed.matchScore with
    | some score =>
      if 0 ≤ score ∧ score ≤ 100 then
        { matchScore := score
          matchedSkills := parsed.matchedSkills.getD []
          missingSkills := parsed.missingSkills.getD []
          matchedRequirements := parsed.matchedRequirements.getD []
          missingRequirements := parsed.missingRequirements.getD []
          semanticGaps := parsed.semanticGaps.getD []
          recommendations := parsed.recommendations.getD [] }
      else calculateBasicMatch cvContent jobDescription jobAnalysis
    | none => calculateBasicMatch cvContent jobDescription jobAnalysis
  | none => calculateBasicMatch cvContent jobDescription jobAnalysis

/-- The fallback score is always clamped into [0, 100]. -/
theorem calculateBasicMatch_matchScore_range (cvContent jobDescription : String)
    (ja : JobAnalysis) :
    0 ≤ (calculateBasicMatch cvContent jobDescription ja).matchScore ∧
      (calculateBasicMatch cvContent jobDescription ja).matchScore ≤ 100 := by
  unfold calculateBasicMatch
  constructor
  · show (0 : ℚ) ≤ ((max 0 (min 100 _) : ℤ) : ℚ)
    exact_mod_cast le_max_left 0 _
  · show ((max 0 (min 100 _) : ℤ) : ℚ) ≤ 100
    exact_mod_cast max_le (by norm_num) (min_le_left 100 _)

/-- C2: every CVMatchAnalysis produced by analyzeCVMatch — through the
validated AI-parse path or through the calculateBasicMatch fallback — has a
matchScore within [0, 100]. -/
theorem c2_matchScore_in_range (cvContent jobDescription : String) (ja : JobAnalysis)
    (aiParsed : Option AiMatchParsed) :
    0 ≤ (analyzeCVMatch cvContent jobDescription ja aiParsed).matchScore ∧
      (analyzeCVMatch cvContent jobDescription ja aiParsed).matchScore ≤ 100 := by
  unfold analyzeCVMatch
  split
  · split
    · split
      · next hv => exact hv
      · exact calculateBasicMatch_matchScore_range cvContent jobDescription ja
    · exact calculateBasicMatch_matchScore_range cvContent jobDescription ja
  · exact calculateBasicMatch_matchScore_range cvContent jobDescription ja

/-- Division that fails on a zero denominator, used to witness that no
division in the fallback scoring can divide by zero. -/
def checkedDiv (a b : ℚ) : Option ℚ :=
  if b = 0 then none else some (a / b)

/-- calculateKeywordOverlap with its division guarded by `checkedDiv`. -/
def calculateKeywordOverlapChecked (cvContent jobDescription : String) : Option ℚ :=
  let cvWords := wordSet cvContent
  let jobWords := wordSet jobDescription
  let matchCount := (jobWords.filter (fun w => cvWords.contains w)).length
  if jobWords.length > 0 then checkedDiv (matchCount : ℚ) (jobWords.length : ℚ)
  else some 0

/-- calculateBasicMatch with every division guarded by `checkedDiv`. -/
def calculateBasicMatchChecked (cvContent jobDescription : String)
    (jobAnalysis : JobAnalysis) : Option CVMatchAnalysis :=
  let cvLower := jsToLower cvContent
  let matchedSkills := jobAnalysis.candidateProfile.keySkills.filter
    (fun skill => jsIncludes cvLower (jsToLower skill))
  let missingSkills := jobAnalysis.candidateProfile.keySkills.filter
    (fun skill => !(jsIncludes cvLower (jsToLower skill)))
  let matchedRequirements := jobAnalysis.keyRequirements.filter
    (fun req => reqHasMatch cvLower req)
  let missingRequirements := jobAnalysis.keyRequirements.filter
    (fun req => !(reqHasMatch cvLower req))
  let totalSkills := max 1 jobAnalysis.candidateProfile.keySkills.length
  let totalRequirements := max 1 jobAnalysis.keyRequirements.length
  match checkedDiv (matchedSkills.length : ℚ) (totalSkills : ℚ),
      checkedDiv (matchedRequirements.length : ℚ) (totalRequirements : ℚ),
      calculateKeywordOverlapChecked cvContent jobDescription with
  | some skillFrac, some reqFrac, some keywordOverlap =>
    let skillScore : ℚ := skillFrac * 40
    let requirementScore : ℚ := reqFrac * 40
    let keywordScore := keywordOverlap * 20
    let rounded : ℤ := jsRound (skillScore + requirementScore + keywordScore)
    let withBonus : ℤ := if cvContent.length > 500 then min 100 (rounded + 5) else rounded
    let matchScore : ℤ := max 0 (min 100 withBonus)
    some
      { matchScore := (matchScore : ℚ)
        matchedSkills := matchedSkills
        missingSkills := missingSkills
        matchedRequirements := matchedRequirements
        missingRequirements := missingRequirements
        semanticGaps := missingRequirements.take 5
        recommendations := generateRecommendations missingSkills missingRequirements }
  | _, _, _ => none

/-- The guarded keyword overlap never hits a zero denominator. -/
theorem calculateKeywordOverlapChecked_eq (cvContent jobDescription : String) :
    calculateKeywordOverlapChecked cvContent jobDescription =
      some (calculateKeywordOverlap cvContent jobDescription) := by
  unfold calculateKeywordOverlapChecked calculateKeywordOverlap
  by_cases h : (wordSet jobDescription).length > 0
  · have hne : ((wordSet jobDescription).length : ℚ) ≠ 0 := by
      exact_mod_cast (by omega : (wordSet jobDescription).length ≠ 0)
    rw [if_pos h, if_pos h, checkedDiv, if_neg hne]
  · rw [if_neg h, if_neg h]

/-- C9: calculateBasicMatch is total — its two coverage divisions have
denominators clamped to at least 1 and the keyword-overlap division is
guarded by an emptiness test, so the checked variant always succeeds and
agrees with the unchecked function on every input, including a JobAnalysis
with empty keySkills and keyRequirements. -/
theorem c9_basic_match_total (cvContent jobDescription : String) (ja : JobAnalysis) :
    calculateBasicMatchChecked cvContent jobDescription ja =
      some (calculateBasicMatch cvContent jobDescription ja) := by
  have hs : ((max 1 ja.candidateProfile.keySkills.length : ℕ) : ℚ) ≠ 0 := by
    exact_mod_cast (by omega : max 1 ja.candidateProfile.keySkills.length ≠ 0)
  have hr : ((max 1 ja.keyRequirements.length : ℕ) : ℚ) ≠ 0 := by
    exact_mod_cast (by omega : max 1 ja.keyRequirements.length ≠ 0)
  simp only [calculateBasicMatchChecked, calculateBasicMatch, checkedDiv,
    calculateKeywordOverlapChecked_eq, if_neg hs, if_neg hr]

/-- Tiny regex abstract syntax sufficient for the patterns of the extractor:
single-character classes, sequencing, an optional part, a greedy
one-or-more over a class, and a greedy bounded repetition over a class. -/
inductive RE where
  | cls (p : Char → Bool)
  | seq (r1 r2 : RE)
  | opt (r : RE)
  | plusCls (p : Char → Bool)
  | repCls (p : Char → Bool) (lo hi : Nat)

/-- All matches of a regex at the start of a string, as
(consumed, remainder) pairs in JS backtracking preference order: greedy
quantifiers yield longer candidates first, an optional part tries presence
before absence, and a sequence backtracks its left part before its right
part. -/
def REmatches : RE → List Char → List (List Char × List Char)
  | RE.cls p, s =>
    match s with
    | [] => []
    | c :: rest => if p c then [([c], rest)] else []
  | RE.seq r1 r2, s =>
    (REmatches r1 s).flatMap fun x =>
      (REmatches r2 x.2).map fun y => (x.1 ++ y.1, y.2)
  | RE.opt r, s => REmatches r s ++ [([], s)]
  | RE.plusCls p, s =>
    let run := s.takeWhile p
    (List.range run.length).map fun i =>
      let k := run.length - i
      (run.take k, s.drop k)
  | RE.repCls p lo hi, s =>
    let run := s.takeWhile p
    let m := min hi run.length
    (List.range (m + 1 - lo)).map fun i =>
      let k := m - i
      (run.take k, s.drop k)

/-- Leftmost match search: try each start position from the left and take
the preferred match at the first position that has one, exactly as JS
`String.prototype.match` with a non-global regex. -/
def reFirstMatchAux (r : RE) : List Char → Option (List Char)
  | [] => ((REmatches r []).head?).map (fun x => x.1)
  | c :: rest =>
    match ((REmatches r (c :: rest)).head?).map (fun x => x.1) with
    | some m => some m
    | none => reFirstMatchAux r rest

/-- Leftmost regex match on a string. -/
def reFirstMatch (r : RE) (s : String) : Option String :=
  (reFirstMatchAux r s.data).map String.mk

/-- Character class `[\w.-]` of the email pattern. -/
def wordDotDashChar (c : Char) : Bool :=
  c.isAlphanum || c = '_' || c = '.' || c = '-'

/-- Character class `\w`. -/
def wordChar (c : Char) : Bool := c.isAlphanum || c = '_'

/-- Character class `[-.\s]` of the phone pattern. -/
def dashDotWsChar (c : Char) : Bool := c = '-' || c = '.' || c.isWhitespace

/-- Email pattern of extractBasicInfo: `[\w.-]+@[\w.-]+\.\w+` (the `i` flag
is vacuous since every class is closed under case). -/
def emailRE : RE :=
  RE.seq (RE.plusCls wordDotDashChar)
    (RE.seq (RE.cls (fun c => c = '@'))
      (RE.seq (RE.plusCls wordDotDashChar)
        (RE.seq (RE.cls (fun c => c = '.')) (RE.plusCls wordChar))))

/-- Phone pattern of extractBasicInfo: an optional prefix group of an
optional plus sign, one to three digits and an optional separator, then an
optional opening parenthesis, three digits, an optional closing
parenthesis, an optional separator, three digits, an optional separator
and four digits. -/
def phoneRE : RE :=
  RE.seq
    (RE.opt (RE.seq (RE.opt (RE.cls (fun c => c = '+')))
      (RE.seq (RE.repCls Char.isDigit 1 3) (RE.opt (RE.cls dashDotWsChar)))))
    (RE.seq (RE.opt (RE.cls (fun c => c = '(')))
      (RE.seq (RE.repCls Char.isDigit 3 3)
        (RE.seq (RE.opt (RE.cls (fun c => c = ')')))
          (RE.seq (RE.opt (RE.cls dashDotWsChar))
            (RE.seq (RE.repCls Char.isDigit 3 3)
              (RE.seq (RE.opt (RE.cls dashDotWsChar))
                (RE.repCls Char.isDigit 4 4)))))))

/-- Skill keyword list of extractBasicInfo. -/
def skillKeywords : List String :=
  ["javascript", "python", "react", "node", "typescript", "java", "c++", "sql",
   "aws", "docker", "kubernetes", "git", "agile", "scrum", "leadership",
   "project management", "data analysis", "machine learning", "ai"]

/-- Experience indicator words of extractBasicInfo. -/
def experienceIndicators : List String :=
  ["experience", "worked at", "employed", "position", "role", "job"]

/-- Education indicator words of extractBasicInfo. -/
def educationIndicators : List String :=
  ["university", "college", "degree", "bachelor", "master", "phd", "education"]

/-- extractBasicInfo of cvInfoExtractor.service: regex-based fallback
extraction of email, phone, skill keywords and section indicators. -/
def extractBasicInfo (cvContent : String) : ExtractedCVInfo :=
  let email := reFirstMatch emailRE cvContent
  let phone := reFirstMatch phoneRE cvContent
  let foundSkills := skillKeywords.filter
    (fun skill => jsIncludes (jsToLower cvContent) (jsToLower skill))
  { personalInfo := { fullName := none, email := email, phone := phone, location := none }
    experience := []
    education := []
    skills := if foundSkills.isEmpty then [] else foundSkills
    certifications := []
    summary := none
    hasPersonalInfo := email.isSome || phone.isSome
    hasExperience := experienceIndicators.any
      (fun indicator => jsIncludes (jsToLower cvContent) indicator)
    hasEducation := educationIndicators.any
      (fun indicator => jsIncludes (jsToLower cvContent) indicator)
    hasSkills := !foundSkills.isEmpty }

/-- The JSON object parsed from the model response in extractCVInfo, before
the boolean flags are computed; each part may be absent. -/
structure AiExtractedParsed where
  personalInfo : Option ExtractedPersonalInfo := none
  experience : Option (List ExperienceEntry) := none
  education : Option (List EducationEntry) := none
  skills : Option (List String) := none
  certifications : Option (List String) := none
  summary : Option String := none
  deriving Repr, DecidableEq

/-- Optional chaining into the parsed personalInfo. -/
def piField (pi : Option ExtractedPersonalInfo)
    (f : ExtractedPersonalInfo → Option String) : Option String :=
  match pi with
  | some p => f p
  | none => none

/-- Flag computation and defaulting applied by extractCVInfo to a parsed
extraction result. -/
def aiExtractToInfo (extracted : AiExtractedParsed) : ExtractedCVInfo :=
  { personalInfo := extracted.personalInfo.getD {}
    experience := extracted.experience.getD []
    education := extracted.education.getD []
    skills := extracted.skills.getD []
    certifications := extracted.certifications.getD []
    summary := extracted.summary
    hasPersonalInfo :=
      jsTruthy (piField extracted.personalInfo (fun p => p.fullName)) ||
      jsTruthy (piField extracted.personalInfo (fun p => p.email)) ||
      jsTruthy (piField extracted.personalInfo (fun p => p.phone))
    hasExperience :=
      match extracted.experience with
      | some l => !l.isEmpty && l.any (fun e => jsTruthy e.title || jsTruthy e.company)
      | none => false
    hasEducation :=
      match extracted.education with
      | some l => !l.isEmpty && l.any (fun e => jsTruthy e.degree || jsTruthy e.institution)
      | none => false
    hasSkills :=
      match extracted.skills with
      | some l => !l.isEmpty
      | none => false }

/-- The fixed empty extraction record returned for blank input. -/
def emptyExtractedCVInfo : ExtractedCVInfo :=
  { personalInfo := {}
    experience := []
    education := []
    skills := []
    certifications := []
    hasPersonalInfo := false
    hasExperience := false
    hasEducation := false
    hasSkills := false }

/-- extractCVInfo of cvInfoExtractor.service.  Blank input returns the
fixed empty record before any model interaction.  Otherwise `aiParsed`
(`some` for a parsed JSON object, `none` for a thrown error or missing
JSON, both of which fall back to extractBasicInfo) is consumed, and the
second component counts generateText calls. -/
def extractCVInfo (cvContent : String) (aiParsed : Option AiExtractedParsed) :
    ExtractedCVInfo × Nat :=
  if cvContent = "" ∨ (jsTrim cvContent).length = 0 then
    (emptyExtractedCVInfo, 0)
  else
    match aiParsed with
    | some extracted => (aiExtractToInfo extracted, 1)
    | none => (extractBasicInfo cvContent, 1)

/-- C10: for blank (empty or whitespace-only) CV content, extractCVInfo
returns the fixed empty record and performs no inference-model call,
whatever the model would have answered. -/
theorem c10_blank_cv_short_circuit (cvContent : String)
    (aiParsed : Option AiExtractedParsed) (h : jsTrim cvContent = "") :
    extractCVInfo cvContent aiParsed = (emptyExtractedCVInfo, 0) := by
  unfold extractCVInfo
  rw [if_pos (Or.inr (by rw [h]; rfl))]

/-- C10 witness: whitespace-only content with an available parsed answer
still yields the empty record and zero calls. -/
theorem c10_blank_cv_short_circuit_witness :
    jsTrim "   " = "" ∧
      extractCVInfo "   " (some { skills := some ["python"] }) =
        (emptyExtractedCVInfo, 0) :=
  ⟨by decide, c10_blank_cv_short_circuit "   " (some { skills := some ["python"] })
    (by decide)⟩

/-- C8 (amended): whenever the email pattern matches somewhere in the CV
text, extractBasicInfo stores the leftmost match — itself an address the
extractor can detect — as personalInfo.email and sets hasPersonalInfo. -/
theorem c8_email_roundtrip (cvContent e : String)
    (h : reFirstMatch emailRE cvContent = some e) :
    (extractBasicInfo cvContent).personalInfo.email = some e ∧
      (extractBasicInfo cvContent).hasPersonalInfo = true := by
  simp only [extractBasicInfo]
  exact ⟨h, by rw [h]; rfl⟩

/-- C8 witness: a CV containing one email address round-trips it through
extractBasicInfo. -/
theorem c8_email_roundtrip_witness :
    reFirstMatch emailRE "Contact: jane.doe@example.com" =
        some "jane.doe@example.com" ∧
      (extractBasicInfo "Contact: jane.doe@example.com").personalInfo.email =
        some "jane.doe@example.com" ∧
      (extractBasicInfo "Contact: jane.doe@example.com").hasPersonalInfo = true := by
  have h : reFirstMatch emailRE "Contact: jane.doe@example.com" =
      some "jane.doe@example.com" := by decide
  have hc := c8_email_roundtrip "Contact: jane.doe@example.com" "jane.doe@example.com" h
  exact ⟨h, hc.1, hc.2⟩

/-- C8 counterexample: the CV text contains the detectable address
x@y.zw — the extractor run on that address alone returns it in full — yet
extractBasicInfo on the whole CV returns the earlier address a@b.cd, so the
output is not equal to every detectable contained address. -/
theorem c8_counterexample :
    "a@b.cd x@y.zw" = "a@b.cd " ++ "x@y.zw" ∧
      reFirstMatch emailRE "x@y.zw" = some "x@y.zw" ∧
      (extractBasicInfo "a@b.cd x@y.zw").personalInfo.email = some "a@b.cd" ∧
      (extractBasicInfo "a@b.cd x@y.zw").personalInfo.email ≠ some "x@y.zw" := by
  refine ⟨rfl, by decide, by decide, by decide⟩

/-- C6 counterexample: with every recognized variable unset, the current
InferenceClient-based getHfClient still returns a constructed client whose
token is undefined — it proceeds without a credential instead of signalling
a configuration error (its type admits no error at all). -/
theorem c6_counterexample :
    (∀ n ∈ recognizedTokenVars, envNoToken n = none) ∧
      getHfClient envNoToken = { token := none } :=
  ⟨fun _ _ => rfl, rfl⟩
